import Mathlib

/-!
Shallow embedding of `src/apps/fastapi-inference/app.py`: a text-generation
request router that tries an Ollama primary backend and falls back to a
Bedrock placeholder backend, plus a health aggregator.

External I/O (the awaited HTTP calls, exception-raising environment, wall
clock) is passed in as explicit parameters, so each Python coroutine becomes
a total Lean function of its request and of the outcome the environment
produced for each awaited operation.  Exception propagation becomes
`Except`.  Wall-clock latency (`latency_ms`, `timestamp`) is nondeterministic
real time, so it is either a parameter or omitted where no claim touches it.
-/

namespace FastApiInference

/-- Python `str.split()` with no arguments splits on runs of whitespace and
drops empty pieces.  ASCII whitespace recognised by Python: space, tab,
newline, carriage return, vertical tab, form feed. -/
def pyIsSpace (c : Char) : Bool :=
  c = ' ' || c = '\t' || c = '\n' || c = '\r' || c = '\x0b' || c = '\x0c'

/-- Single pass over the characters accumulating the current word (in
reverse); a whitespace character closes the pending word, so empty pieces
are never produced. -/
def pySplitAux : List Char → List Char → List String
  | [], [] => []
  | [], w => [String.mk w.reverse]
  | c :: cs, w =>
      if pyIsSpace c then
        match w with
        | [] => pySplitAux cs []
        | _ => String.mk w.reverse :: pySplitAux cs []
      else pySplitAux cs (c :: w)

/-- List of whitespace-separated words of `s`, as Python `s.split()`. -/
def pySplit (s : String) : List String :=
  pySplitAux s.toList []

/-- GenerateRequest (app.py lines 25-36).  `temperature` is a float that is
only forwarded inside the payload to the external backend and never affects
the embedded control flow, so it is not modelled.  Defaults follow the
source: `model` defaults to DEFAULT_MODEL (env default "llama3"),
`max_tokens` to 100, `stream` to false (inert). -/
structure GenerateRequest where
  prompt : String
  model : String := "llama3"
  max_tokens : Int := 100
  stream : Bool := false
deriving Repr, DecidableEq

/-- GenerateResponse (app.py lines 39-44).  `latency_ms` is elapsed wall time
of the serving call, a nondeterministic real-time measurement no claim
constrains, so it is not modelled. -/
structure GenerateResponse where
  text : String
  model : String
  tokens_used : Nat
  source : String
deriving Repr, DecidableEq

/-- A raised Python exception, as the except-handlers of app.py see it:
either a `fastapi.HTTPException` (whose `str` is "{status_code}: {detail}")
or any other exception carrying its message text. -/
inductive PyExn where
  | httpException (status_code : Nat) (detail : String)
  | other (msg : String)
deriving Repr, DecidableEq

/-- Python `str(e)` of an exception: starlette's `HTTPException.__str__`
returns "{status_code}: {detail}"; for a generic exception we take its
message. -/
def PyExn.toStr : PyExn → String
  | .httpException s d => toString s ++ ": " ++ d
  | .other m => m

/-- Outcome of the awaited `http_client.post(OLLAMA_URL + "/api/generate")`
in `generate_with_ollama` (app.py line 134), as the environment produced it:
either the await raised (network error, timeout) with exception text `msg`,
or it returned a response with a status code, a raw body text
(`response.text`), and the result of `response.json().get("response")`:
`.error msg` when `response.json()` itself raises, `.ok (some s)` when the
parsed body has a string field "response" with value `s`, `.ok none` when the
field is absent (so `.get("response", "")` yields ""). -/
inductive HttpResult where
  | exn (msg : String)
  | resp (status : Nat) (text : String) (body : Except String (Option String))
deriving Repr

/-- Body of the `try` block of `generate_with_ollama` (app.py lines 123-153):
non-200 status raises `HTTPException(status, "Ollama error: " ++ body)`;
otherwise the normalized result is built from the "response" field, with
`tokens_used` the whitespace word count of that text and `source` "ollama". -/
def ollamaTryBody (request : GenerateRequest) (post : HttpResult) :
    Except PyExn GenerateResponse :=
  match post with
  | .exn msg => .error (.other msg)
  | .resp status text body =>
      if status ≠ 200 then
        .error (.httpException status ("Ollama error: " ++ text))
      else
        match body with
        | .error msg => .error (.other msg)
        | .ok jsonResponse =>
            let t := jsonResponse.getD ""
            .ok { text := t
                  model := request.model
                  tokens_used := (pySplit t).length
                  source := "ollama" }

/-- generate_with_ollama (app.py lines 119-159): the `except Exception`
handler (lines 155-159) converts every failure of the try body, including the
HTTPException raised for a non-200 status, into
`HTTPException(500, "Ollama generation failed: " ++ str e)`. -/
def generate_with_ollama (request : GenerateRequest) (post : HttpResult) :
    Except PyExn GenerateResponse :=
  match ollamaTryBody request post with
  | .ok r => .ok r
  | .error e =>
      .error (.httpException 500 ("Ollama generation failed: " ++ e.toStr))

/-- generate_with_bedrock_fallback (app.py lines 162-178): a deterministic
placeholder that never raises; the text is the literal prefix followed by the
prompt, the model is the constant "bedrock-claude", `tokens_used` is the
whitespace word count of the text and `source` is "bedrock". -/
def generate_with_bedrock_fallback (request : GenerateRequest) :
    GenerateResponse :=
  let fallback_response := "[BEDROCK FALLBACK] Response to: " ++ request.prompt
  { text := fallback_response
    model := "bedrock-claude"
    tokens_used := (pySplit fallback_response).length
    source := "bedrock" }

/-- The error `generate_text` surfaces on total failure: the HTTP status code
of the raised `HTTPException`, the list of (backend name, cause) attempt
records the detail string enumerates, in attempt order, and the detail string
itself built exactly as in the source. -/
structure OrchError where
  status_code : Nat
  attempts : List (String × String)
  detail : String
deriving Repr, DecidableEq

/-- Renders a list of (backend name, cause) records as the comma-separated
enumeration "Name1: cause1, Name2: cause2, ..." used by the detail string of
app.py lines 209-210. -/
def enumerateAttempts : List (String × String) → String
  | [] => ""
  | [(n, c)] => n ++ ": " ++ c
  | (n, c) :: rest => n ++ ": " ++ c ++ ", " ++ enumerateAttempts rest

/-- generate_text (app.py lines 183-216), the orchestrator.  Its two awaited
backend calls are passed in as outcomes: `ollamaOutcome` is what
`await generate_with_ollama(request)` produced, `bedrockOutcome` what
`await generate_with_bedrock_fallback(request)` produced (under normal
execution the latter is `.ok (generate_with_bedrock_fallback request)` since
that coroutine never raises, but the source's `except` on lines 205-206
handles a raise, e.g. cancellation, so the outcome is kept abstract).
The second component of the result is the invocation trace: the names of the
backends whose adapter was awaited, in order, instrumenting which adapters
the control flow actually reached. -/
def generate_text (bedrock_fallback : Bool)
    (ollamaOutcome bedrockOutcome : Except PyExn GenerateResponse) :
    Except OrchError GenerateResponse × List String :=
  match ollamaOutcome with
  | .ok r => (.ok r, ["ollama"])
  | .error e =>
      if bedrock_fallback then
        match bedrockOutcome with
        | .ok r => (.ok r, ["ollama", "bedrock"])
        | .error bedrock_error =>
            (.error
              { status_code := 500
                attempts := [("Ollama", e.toStr),
                             ("Bedrock", bedrock_error.toStr)]
                detail := "All inference backends failed. " ++
                  enumerateAttempts
                    [("Ollama", e.toStr), ("Bedrock", bedrock_error.toStr)] },
             ["ollama", "bedrock"])
      else
        (.error
          { status_code := 500
            attempts := [("Ollama", e.toStr)]
            detail := "Ollama failed and Bedrock fallback disabled: " ++
              e.toStr },
         ["ollama"])

/-- HealthResponse (app.py lines 47-50).  `services` is the mapping from
backend name to status string, as an association list. -/
structure HealthResponse where
  status : String
  timestamp : Nat
  services : List (String × String)
deriving Repr, DecidableEq

/-- health_check (app.py lines 89-101).  `probe` is the outcome of awaiting
`http_client.get(OLLAMA_URL + "/api/tags", timeout 5.0)`: `.ok status` a
response with that status code, `.error msg` a raised exception with text
`msg`.  `now` is the wall-clock value of `time.time()`.  A 200 probe yields
"healthy", any other status the bare string "unhealthy", and an exception
"unhealthy: " followed by the exception text; the top-level status is the
constant "healthy". -/
def health_check (probe : Except String Nat) (now : Nat) : HealthResponse :=
  let services :=
    match probe with
    | .ok status =>
        [("ollama", if status = 200 then "healthy" else "unhealthy")]
    | .error e => [("ollama", "unhealthy: " ++ e)]
  { status := "healthy", timestamp := now, services := services }

/-- Following the spec's words (not the source), for comparison: the
configured backends of the service are the primary ollama backend and, when
the fallback flag is enabled, the bedrock fallback backend
(spec section 3 OrchestratorConfig, section 6 configuration). -/
def spec_configuredBackends (bedrock_fallback : Bool) : List String :=
  if bedrock_fallback then ["ollama", "bedrock"] else ["ollama"]

/-- Sample request used by concrete witnesses. -/
def sampleRequest : GenerateRequest := { prompt := "hello" }

/-- Sample successful Ollama HTTP outcome: a 200 response whose JSON body has
"response" field "hi there". -/
def samplePost200 : HttpResult := .resp 200 "" (.ok (some "hi there"))

/-- The normalized result of `sampleRequest` against `samplePost200`. -/
def sampleResponse : GenerateResponse :=
  { text := "hi there", model := "llama3", tokens_used := 2,
    source := "ollama" }

/-- A successful `ollamaTryBody` result is the normalized Ollama result:
source tag "ollama", the requested model, and a token count equal to the
whitespace word count of the text. -/
theorem ollamaTryBody_ok (request : GenerateRequest) (post : HttpResult)
    (r : GenerateResponse) (h : ollamaTryBody request post = .ok r) :
    r.source = "ollama" ∧ r.model = request.model ∧
    r.tokens_used = (pySplit r.text).length := by
  unfold ollamaTryBody at h
  cases post with
  | exn msg => exact absurd h (by simp)
  | resp status text body =>
      by_cases hs : status = 200
      · simp only [hs, ne_eq, not_true_eq_false, if_false, ite_false] at h
        cases body with
        | error msg => exact absurd h (by simp)
        | ok jsonResponse =>
            simp only [Except.ok.injEq] at h
            subst h
            exact ⟨rfl, rfl, rfl⟩
      · simp [hs] at h

/-- A successful `generate_with_ollama` result came from the try body. -/
theorem generate_with_ollama_ok (request : GenerateRequest)
    (post : HttpResult) (r : GenerateResponse)
    (h : generate_with_ollama request post = .ok r) :
    ollamaTryBody request post = .ok r := by
  unfold generate_with_ollama at h
  split at h
  · next r' heq =>
      cases h
      exact heq
  · next e heq => exact absurd h (by simp)

/-- C1: when the primary backend fails with cause `e`, fallback is enabled,
and the fallback backend also fails with cause `bedrock_error`, generate_text
fails with one aggregated error of status 500 whose attempt records are
exactly two, in attempt order (the primary's cause first, then the
fallback's), and whose detail enumerates exactly those records in order. -/
theorem C1_both_backends_fail (e bedrock_error : PyExn) :
    ∃ err : OrchError,
      (generate_text true (.error e) (.error bedrock_error)).1 =
        .error err ∧
      err.status_code = 500 ∧
      err.attempts = [("Ollama", e.toStr),
                      ("Bedrock", bedrock_error.toStr)] ∧
      err.attempts.length = 2 ∧
      err.detail = "All inference backends failed. " ++
        enumerateAttempts err.attempts :=
  ⟨_, rfl, rfl, rfl, rfl, rfl⟩

/-- C2: when the primary (Ollama) backend succeeds with result `r`, the
orchestrator returns exactly `(.ok r)` with invocation trace `["ollama"]`
(the fallback adapter is never invoked, whatever its outcome and whatever
the fallback flag), and the result's source is the primary backend's name
"ollama". -/
theorem C2_primary_success (request : GenerateRequest) (post : HttpResult)
    (bedrock_fallback : Bool) (bedrockOutcome : Except PyExn GenerateResponse)
    (r : GenerateResponse)
    (h : generate_with_ollama request post = .ok r) :
    generate_text bedrock_fallback (generate_with_ollama request post)
        bedrockOutcome = (.ok r, ["ollama"]) ∧
    r.source = "ollama" := by
  have hbody := generate_with_ollama_ok request post r h
  refine ⟨?_, (ollamaTryBody_ok request post r hbody).1⟩
  rw [h]
  rfl

/-- Witness for C2 at a concrete request and a concrete successful primary
response. -/
theorem C2_primary_success_witness :
    generate_text true (generate_with_ollama sampleRequest samplePost200)
        (.ok (generate_with_bedrock_fallback sampleRequest)) =
      (.ok sampleResponse, ["ollama"]) ∧
    sampleResponse.source = "ollama" :=
  C2_primary_success sampleRequest samplePost200 true
    (.ok (generate_with_bedrock_fallback sampleRequest)) sampleResponse rfl

/-- C3: when the primary backend fails and fallback is enabled, under normal
execution (the fallback coroutine runs to completion) the orchestrator
returns the fallback adapter's result with invocation trace
`["ollama", "bedrock"]` — the fallback adapter invoked exactly once — and
that result's source is the fallback backend's name "bedrock", the name of
the backend whose adapter actually produced the text. -/
theorem C3_fallback_invoked_once (request : GenerateRequest)
    (post : HttpResult) (e : PyExn)
    (h : generate_with_ollama request post = .error e) :
    generate_text true (generate_with_ollama request post)
        (.ok (generate_with_bedrock_fallback request)) =
      (.ok (generate_with_bedrock_fallback request), ["ollama", "bedrock"]) ∧
    (generate_text true (generate_with_ollama request post)
        (.ok (generate_with_bedrock_fallback request))).2.count "bedrock"
      = 1 ∧
    (generate_with_bedrock_fallback request).source = "bedrock" := by
  rw [h]
  exact ⟨rfl,
    (by decide : (["ollama", "bedrock"] : List String).count "bedrock" = 1),
    rfl⟩

/-- Witness for C3 at a concrete request whose primary call raises a
connection error. -/
theorem C3_fallback_invoked_once_witness :
    generate_text true
        (generate_with_ollama sampleRequest (.exn "connection refused"))
        (.ok (generate_with_bedrock_fallback sampleRequest)) =
      (.ok (generate_with_bedrock_fallback sampleRequest),
       ["ollama", "bedrock"]) ∧
    (generate_text true
        (generate_with_ollama sampleRequest (.exn "connection refused"))
        (.ok (generate_with_bedrock_fallback sampleRequest))).2.count
      "bedrock" = 1 ∧
    (generate_with_bedrock_fallback sampleRequest).source = "bedrock" :=
  C3_fallback_invoked_once sampleRequest (.exn "connection refused")
    (.httpException 500 "Ollama generation failed: connection refused") rfl

/-- C4: when the primary backend fails with cause `e` and fallback is
disabled, generate_text fails immediately with a 500 aggregated error whose
attempt records are exactly one (the primary's cause), and the invocation
trace is `["ollama"]`: the disabled fallback backend is never attempted,
whatever outcome it would have had. -/
theorem C4_fallback_disabled (e : PyExn)
    (bedrockOutcome : Except PyExn GenerateResponse) :
    generate_text false (.error e) bedrockOutcome =
      (.error
        { status_code := 500
          attempts := [("Ollama", e.toStr)]
          detail := "Ollama failed and Bedrock fallback disabled: " ++
            e.toStr },
       ["ollama"]) ∧
    [("Ollama", PyExn.toStr e)].length = 1 :=
  ⟨rfl, rfl⟩

/-- C5: every successful primary-backend result has `tokens_used` equal to
the whitespace word count of its text (the Ollama backend supplies no usage
count and the adapter always recomputes it), the fallback result likewise,
and the concrete primary response with JSON body field "response" set to
"hi there" yields text "hi there" with tokens_used 2. -/
theorem C5_token_count (request : GenerateRequest) (post : HttpResult)
    (r : GenerateResponse)
    (h : generate_with_ollama request post = .ok r) :
    r.tokens_used = (pySplit r.text).length ∧
    (generate_with_bedrock_fallback request).tokens_used =
      (pySplit (generate_with_bedrock_fallback request).text).length ∧
    generate_with_ollama sampleRequest samplePost200 = .ok sampleResponse ∧
    sampleResponse.tokens_used = 2 ∧
    sampleResponse.text = "hi there" := by
  have hbody := generate_with_ollama_ok request post r h
  exact ⟨(ollamaTryBody_ok request post r hbody).2.2, rfl, rfl, rfl, rfl⟩

/-- Witness for C5 at the concrete sample request and response. -/
theorem C5_token_count_witness :
    sampleResponse.tokens_used = (pySplit sampleResponse.text).length ∧
    (generate_with_bedrock_fallback sampleRequest).tokens_used =
      (pySplit (generate_with_bedrock_fallback sampleRequest).text).length ∧
    generate_with_ollama sampleRequest samplePost200 = .ok sampleResponse ∧
    sampleResponse.tokens_used = 2 ∧
    sampleResponse.text = "hi there" :=
  C5_token_count sampleRequest samplePost200 sampleResponse rfl

/-- C6 counterexample: with fallback enabled, "bedrock" is a configured
backend (in the spec's sense), yet the health report produced when the single
probe raises a connection error contains only the "ollama" entry and no entry
for "bedrock" — so the report does not contain an entry for every configured
backend, and the "one backend unreachable and another healthy" scenario of
the claim cannot produce two entries. -/
theorem C6_counterexample :
    "bedrock" ∈ spec_configuredBackends true ∧
    (health_check (.error "connection refused") 0).services =
      [("ollama", "unhealthy: connection refused")] ∧
    ¬ (∃ v, ("bedrock", v) ∈
        (health_check (.error "connection refused") 0).services) := by
  refine ⟨by simp [spec_configuredBackends], rfl, ?_⟩
  rintro ⟨v, hv⟩
  simp [health_check] at hv

/-- C6 (amended): the health check never fails as a whole — for every probe
outcome it returns a report, with a probe exception captured as an
"unhealthy: ..." entry rather than propagated, and a reachable backend marked
"healthy" — but the report always contains exactly one entry, for the single
probed backend "ollama"; the fallback backend has no liveness probe and never
appears in the report. -/
theorem C6_health_never_fails (probe : Except String Nat) (msg : String)
    (now : Nat) :
    (health_check probe now).services.map Prod.fst = ["ollama"] ∧
    (health_check (.error msg) now).services =
      [("ollama", "unhealthy: " ++ msg)] ∧
    (health_check (.ok 200) now).services = [("ollama", "healthy")] := by
  refine ⟨?_, rfl, rfl⟩
  cases probe with
  | ok status =>
      by_cases hs : status = 200 <;> simp [health_check, hs]
  | error e => rfl

/-- C7 counterexample: a probe that returns a non-success status (here 500)
yields the bare status string "unhealthy", which carries no stringified cause
— it is not of the form "unhealthy: " followed by a cause, refuting the claim
that any non-success outcome yields "unhealthy: <stringified cause>". -/
theorem C7_counterexample :
    (health_check (.ok 500) 0).services = [("ollama", "unhealthy")] ∧
    ¬ (∃ cause : String, "unhealthy" = "unhealthy: " ++ cause) := by
  refine ⟨rfl, ?_⟩
  rintro ⟨cause, hc⟩
  have hlen := congrArg String.length hc
  simp [String.length_append] at hlen
  have h9 : ("unhealthy" : String).length = 9 := by decide
  have h11 : ("unhealthy: " : String).length = 11 := by decide
  rw [h9, h11] at hlen
  omega

/-- C7 (amended): the entry for the probed backend is "healthy" exactly when
the probe returned status 200; a probe exception yields
"unhealthy: <stringified cause>" carrying the exception text; but a probe
response with a non-success status yields the bare string "unhealthy"
without any diagnostic detail. -/
theorem C7_status_strings (status : Nat) (e : String) (now : Nat) :
    ((health_check (.ok status) now).services = [("ollama", "healthy")] ↔
      status = 200) ∧
    (status ≠ 200 →
      (health_check (.ok status) now).services = [("ollama", "unhealthy")]) ∧
    (health_check (.error e) now).services =
      [("ollama", "unhealthy: " ++ e)] := by
  refine ⟨?_, ?_, rfl⟩
  · constructor
    · intro h
      by_contra hs
      simp [health_check, hs] at h
    · intro hs
      simp [health_check, hs]
  · intro hs
    simp [health_check, hs]

/-- Witness for the amended C7 at status 500 and a concrete exception. -/
theorem C7_status_strings_witness :
    (health_check (.ok 500) 7).services = [("ollama", "unhealthy")] ∧
    (health_check (.error "timed out") 7).services =
      [("ollama", "unhealthy: timed out")] :=
  ⟨(C7_status_strings 500 "timed out" 7).2.1 (by decide),
   (C7_status_strings 500 "timed out" 7).2.2⟩

/-- C8: whatever the outcome of the backend probe, the top-level status field
of the health response is the constant "healthy" — an unhealthy backend never
changes the top-level status. -/
theorem C8_top_level_status (probe : Except String Nat) (now : Nat) :
    (health_check probe now).status = "healthy" := by
  cases probe <;> rfl

/-- C9: the fallback adapter is a total deterministic function of the request
— its embedding returns a plain `GenerateResponse`, never an exception — and
its normalized result carries the source tag "bedrock", distinguishable from
the primary backend's tag "ollama", with a token count consistent with its
text. -/
theorem C9_fallback_never_throws (request : GenerateRequest) :
    (generate_with_bedrock_fallback request).source = "bedrock" ∧
    (generate_with_bedrock_fallback request).source ≠ "ollama" ∧
    (generate_with_bedrock_fallback request).tokens_used =
      (pySplit (generate_with_bedrock_fallback request).text).length :=
  ⟨rfl, (by decide : ("bedrock" : String) ≠ "ollama"), rfl⟩

/-- C10: for every request, the fallback result's model is the constant
"bedrock-claude" irrespective of the requested model, and its text is exactly
the literal "[BEDROCK FALLBACK] Response to: " followed by the request's
prompt; consequently whenever the caller asked for a model other than
"bedrock-claude" the reported model differs from the requested one. -/
theorem C10_fallback_model (request : GenerateRequest) :
    (generate_with_bedrock_fallback request).model = "bedrock-claude" ∧
    (generate_with_bedrock_fallback request).text =
      "[BEDROCK FALLBACK] Response to: " ++ request.prompt ∧
    (request.model ≠ "bedrock-claude" →
      (generate_with_bedrock_fallback request).model ≠ request.model) := by
  refine ⟨rfl, rfl, ?_⟩
  intro h hc
  exact h hc.symm

/-- Witness for C10 at a concrete request asking for model "llama3",
discharging the model-differs hypothesis there. -/
theorem C10_fallback_model_witness :
    (generate_with_bedrock_fallback sampleRequest).model = "bedrock-claude" ∧
    (generate_with_bedrock_fallback sampleRequest).text =
      "[BEDROCK FALLBACK] Response to: " ++ sampleRequest.prompt ∧
    (generate_with_bedrock_fallback sampleRequest).model ≠
      sampleRequest.model :=
  ⟨(C10_fallback_model sampleRequest).1,
   (C10_fallback_model sampleRequest).2.1,
   (C10_fallback_model sampleRequest).2.2 (by decide)⟩

end FastApiInference
